import Mathlib

/-!
Verification of the conversation-session and run-polling engine of the
PrivateBOT repository (`ionetbot.js`, `ionetbot_test_dm.js`,
`ionetbot_withoutMongoDB.js`).

The JavaScript source is shallowly embedded: network calls to the AI
backend and the messaging platform are modelled by explicit inputs
(lists of simulated poll results, success flags for platform calls),
`Date.now()` by an explicit `now : Nat` parameter, and the cooperative
event loop by explicit small-step machines whose steps correspond to the
code between `await` suspension points.
-/

namespace PrivateBot

/-! ## Run driver (`statusCheckLoop`, `ionetbot.js` lines 78-93)

A poll result is `Except.error e` when `openai.beta.threads.runs.retrieve`
throws a transport error (the JS `catch` logs and rethrows), and
`Except.ok s` when it resolves with `run.status = s`. -/

/-- Terminal states of a run, from `ionetbot.js` line 78. -/
def terminalStates : List String := ["cancelled", "failed", "completed", "expired"]

/-- `statusCheckLoop`, driven by the list of simulated poll results.
Returns the final status (or the propagated transport error) together
with the list of `sleep` durations performed before it was reached; each
non-terminal poll contributes one `sleep(1000)` suspension.  `none` means
the simulated poll sequence was exhausted while the loop would still be
polling. -/
def statusCheckLoop : List (Except String String) → Option (Except String String × List Nat)
  | [] => none
  | (Except.error e) :: _ => some (Except.error e, [])
  | (Except.ok s) :: rest =>
    if terminalStates.contains s then
      some (Except.ok s, [])
    else
      match statusCheckLoop rest with
      | none => none
      | some (r, sleeps) => some (r, 1000 :: sleeps)

/-! ## Rate governor (`nextAvailableTime`, `ionetbot.js` lines 75, 214-217, 244-253) -/

/-- Admission check from `ionetbot.js` line 214: the request is rejected
when `Date.now() < nextAvailableTime`, so it is admitted exactly when
that comparison is false. -/
def checkAdmit (nextAvailableTime now : Nat) : Bool :=
  !(decide (now < nextAvailableTime))

/-- The penalty assignment `nextAvailableTime = Date.now() + 20 * 1000`
from `ionetbot.js` line 252. -/
def penalize (now : Nat) : Nat := now + 20 * 1000

/-- The failed-run branch of `ionetbot.js` lines 248-253: the new value of
`nextAvailableTime` given the code of `details.last_error` (or `none` when
`last_error` is absent), the current time and the previous value. -/
def failedBranchNext (lastErrorCode : Option String) (now nextAvailableTime : Nat) : Nat :=
  match lastErrorCode with
  | some c => if c = "rate_limit_exceeded" then penalize now else nextAvailableTime
  | none => nextAvailableTime

/-- The successive values taken by `nextAvailableTime` over a process
lifetime: it starts at `Date.now()` (line 75) and each penalty observed at
real time `t` sets it to `penalize t` (line 252); no other assignment
exists in the source. -/
def gateStates (t0 : Nat) (penaltyTimes : List Nat) : List Nat :=
  t0 :: penaltyTimes.map penalize

/-! ## Session manager (`ionetbot_test_dm.js` lines 33, 80-103) -/

/-- The `!create` handler, `ionetbot_test_dm.js` line 85:
`dmSessions[discordId] = Date.now() + 600000`, unconditionally
overwriting any previous entry.  The session table is a map from user
identifier to session end time. -/
def startSession (dmSessions : String → Option Nat) (discordId : String) (now : Nat) :
    String → Option Nat :=
  fun u => if u = discordId then some (now + 600000) else dmSessions u

/-- The DM admission check, `ionetbot_test_dm.js` lines 96-103: the message
is rejected when `!sessionEndTime || Date.now() > sessionEndTime`.  A
stored end time of `0` would be falsy in JavaScript, hence the extra
branch; `startSession` never stores `0`. -/
def isAdmitted (dmSessions : String → Option Nat) (discordId : String) (now : Nat) : Bool :=
  match dmSessions discordId with
  | none => false
  | some sessionEndTime =>
    if sessionEndTime = 0 then false
    else !(decide (now > sessionEndTime))

/-! ## Reply truncation (`ionetbot.js` line 260) -/

/-- `response = response.substring(0, 1999)` applied to the extracted
reply text, modelled on the list of the string's characters. -/
def truncateResponse (response : List Char) : List Char :=
  response.take 1999

/-! ## Persistence wrapper (`withDb`, `ionetbot.js` lines 104-111)

A database operation is `Except.ok ()` when it succeeds and
`Except.error e` when it throws.  `withDb` runs it inside `try/catch`:
an error is logged via `console.error` and swallowed, so the wrapper
always returns normally.  The result pairs the (unit) return value with
the log lines produced. -/

/-- `withDb`: executes the operation, catching and logging any error. -/
def withDb (operation : Except String Unit) : Unit × List String :=
  match operation with
  | Except.ok _ => ((), [])
  | Except.error e => ((), ["Error during DB operation: " ++ e])

/-! ## Message routing (`ionetbot.js` lines 119-123, 213) -/

/-- Discord channel kinds distinguished by the handler. -/
inductive MChannelType
  | guildText
  | dm
  | other
deriving DecidableEq

/-- The fields of an inbound message the `messageCreate` handler reads. -/
structure InMsg where
  authorBot : Bool
  content : String
  channelId : String
  channelType : MChannelType
  channelName : String

/-- Which branch of the `messageCreate` handler a message reaches. -/
inductive Route
  | ignored
  | createCommand
  | aiDispatch
  | fallthrough
deriving DecidableEq

/-- JavaScript `String.prototype.startsWith`, modelled as a structural
test on the strings' character lists. -/
def jsStartsWith (s pre : String) : Bool :=
  pre.data.isPrefixOf s.data

/-- The branch structure of the `messageCreate` handler in `ionetbot.js`:
line 120 ignores bot/empty messages; line 123 handles
`!createPrivateChannel` in the designated command channel; line 213 enters
the AI-dispatch branch when the channel is a guild text channel whose name
starts with `private-`.  The `channelsMap` registry is passed in as the
handler's ambient state; the source conditions never read it. -/
def routeMessage (channelsMap : String → Bool) (commandChannelId : String) (m : InMsg) :
    Route :=
  if m.authorBot || m.content = "" then
    Route.ignored
  else if jsStartsWith m.content "!createPrivateChannel"
      && m.channelId = commandChannelId then
    Route.createCommand
  else if m.channelType = MChannelType.guildText
      && jsStartsWith m.channelName "private-" then
    Route.aiDispatch
  else
    Route.fallthrough

/-! ## Thread registry (`threadMap`, `ionetbot.js` lines 61, 68-73, 219-226)

Backend thread identifiers are modelled as the naturals handed out by a
counter `nextThread`: creating a backend thread returns the current
counter value and increments it, so `nextThread` also counts how many
backend threads have been created. -/

/-- The registry state: `threadMap` plus the backend's thread allocator. -/
structure Registry where
  threadMap : String → Option Nat
  nextThread : Nat

/-- `getOpenAiThreadId` (`ionetbot.js` line 68). -/
def getOpenAiThreadId (r : Registry) (discordThreadId : String) : Option Nat :=
  r.threadMap discordThreadId

/-- `addThreadToMap` (`ionetbot.js` lines 71-73). -/
def addThreadToMap (r : Registry) (discordThreadId : String) (openAiThreadId : Nat) :
    Registry :=
  { r with threadMap := fun x => if x = discordThreadId then some openAiThreadId
                                 else r.threadMap x }

/-- The lookup-or-create sequence of `ionetbot.js` lines 219-226 run to
completion with no interleaved activity: look the channel up in
`threadMap`; if absent, create a backend thread (`openai.beta.threads.create`)
and record the binding.  Returns the thread identifier used together with
the updated state. -/
def resolveOrCreate (r : Registry) (discordThreadId : String) : Nat × Registry :=
  match getOpenAiThreadId r discordThreadId with
  | some t => (t, r)
  | none =>
    let t := r.nextThread
    let r1 : Registry := { threadMap := r.threadMap, nextThread := r.nextThread + 1 }
    (t, addThreadToMap r1 discordThreadId t)

/-! ### Interleaved lookup-or-create

Two messages for the same conversation can interleave at the
`await openai.beta.threads.create()` suspension point between the map
read (line 219) and the map write (line 225).  Each handler task is a
small-step program; a step runs the code between two suspension points. -/

/-- Program counter of one lookup-or-create task. -/
inductive LookupPC
  | start
  | afterCreate (t : Nat)
  | done (t : Nat)
deriving DecidableEq

/-- Shared state for two lookup-or-create tasks on one conversation:
`bound` is that conversation's `threadMap` entry and `nextThread` the
backend allocator. -/
structure ConcRegistry where
  bound : Option Nat
  nextThread : Nat
  task1 : LookupPC
  task2 : LookupPC
deriving DecidableEq

/-- One step of a lookup-or-create task: at `start` it reads the map and
either finishes with the bound identifier or issues the backend create
(whose completion is the suspension point, returning a fresh identifier);
at `afterCreate` it writes the binding via `addThreadToMap` and finishes.
Returns the new map entry, allocator and program counter. -/
def stepLookup (bound : Option Nat) (nextThread : Nat) :
    LookupPC → Option Nat × Nat × LookupPC
  | LookupPC.start =>
    match bound with
    | some t => (bound, nextThread, LookupPC.done t)
    | none => (bound, nextThread + 1, LookupPC.afterCreate nextThread)
  | LookupPC.afterCreate t => (some t, nextThread, LookupPC.done t)
  | LookupPC.done t => (bound, nextThread, LookupPC.done t)

/-- Run one scheduler choice: `true` steps task 1, `false` steps task 2. -/
def stepConc (s : ConcRegistry) (first : Bool) : ConcRegistry :=
  if first then
    let (b, n, pc) := stepLookup s.bound s.nextThread s.task1
    { bound := b, nextThread := n, task1 := pc, task2 := s.task2 }
  else
    let (b, n, pc) := stepLookup s.bound s.nextThread s.task2
    { bound := b, nextThread := n, task1 := s.task1, task2 := pc }

/-- Run a whole schedule. -/
def runConc (s : ConcRegistry) (sched : List Bool) : ConcRegistry :=
  sched.foldl stepConc s

/-! ## Ephemeral private channels: the two close paths (`ionetbot.js`)

Shared state: `reg` is membership of the channel in `channelsMap`,
`deletes` counts platform delete calls issued, `records` counts deletion
lifecycle records written (the `channelDeletions` insert of lines
188-195).  Platform call outcomes are explicit flags. -/

/-- Close-path state: registry membership and the two counters. -/
structure CloseState where
  reg : Bool
  deletes : Nat
  records : Nat
deriving DecidableEq

/-- The timer callback of `ionetbot.js` lines 179-203 run to completion
with no interleaved activity.  `fetchOk` tells whether
`client.channels.fetch` resolves with the channel; `deleteOk` whether the
`fetchedChannel.delete()` call succeeds.  On success the deletion record
is written; on any error the `catch` only logs; the `finally` removes the
registry entry in every case that passed the initial `channelsMap.has`
guard. -/
def timerCloseRun (st : CloseState) (fetchOk deleteOk : Bool) : CloseState :=
  if st.reg then
    let st1 :=
      if fetchOk then
        let st2 : CloseState := { st with deletes := st.deletes + 1 }
        if deleteOk then { st2 with records := st2.records + 1 } else st2
      else st
    { st1 with reg := false }
  else st

/-- The `close_ticket` interaction handler of `ionetbot.js` lines 286-302
run to completion with no interleaved activity.  If the channel is in
`channelsMap`, `channel.delete()` is called; only when it succeeds is the
registry entry removed (the map delete is inside the `try`, after the
platform call); a failed delete leaves the entry in place.  No deletion
lifecycle record is written on this path. -/
def userCloseRun (st : CloseState) (deleteOk : Bool) : CloseState :=
  if st.reg then
    let st1 : CloseState := { st with deletes := st.deletes + 1 }
    if deleteOk then { st1 with reg := false } else st1
  else st

/-! ### Interleaved close paths

Both close paths contain `await`s between their `channelsMap` check and
their state mutations, so the timer callback and the interaction handler
can interleave.  `plat` tells whether the platform-side channel still
exists: a delete call issued while `plat` is true succeeds and destroys
it; issued while it is false, the call fails. -/

/-- Program counter of the timer callback: the initial `channelsMap.has`
check, the pending `client.channels.fetch`, the pending
`fetchedChannel.delete()`, the deletion-record write, done. -/
inductive TimerPC
  | tStart
  | tFetch
  | tDelete
  | tRecord
  | tDone
deriving DecidableEq

/-- Program counter of the `close_ticket` handler: the `channelsMap.get`
check, the pending `channel.delete()`, the `channelsMap.delete`, done. -/
inductive UserPC
  | uStart
  | uDelete
  | uDereg
  | uDone
deriving DecidableEq

/-- Shared state for the two concurrently firing close paths. -/
structure CloseConc where
  reg : Bool
  plat : Bool
  deletes : Nat
  records : Nat
  timer : TimerPC
  user : UserPC
deriving DecidableEq

/-- One step of the timer callback (`ionetbot.js` lines 179-203).  At
`tStart` the `channelsMap.has` guard either suspends into the fetch or
finishes.  At `tFetch` the fetch resolves with the channel when it still
exists, otherwise the rejection is caught and the `finally` deregisters.
At `tDelete` the delete call is issued; on success the record write
follows, on failure (channel already destroyed) the `catch` logs and the
`finally` deregisters.  `tRecord` writes the deletion record and the
`finally` deregisters. -/
def stepTimerClose (s : CloseConc) : CloseConc :=
  match s.timer with
  | TimerPC.tStart =>
    if s.reg then { s with timer := TimerPC.tFetch }
    else { s with timer := TimerPC.tDone }
  | TimerPC.tFetch =>
    if s.plat then { s with timer := TimerPC.tDelete }
    else { s with reg := false, timer := TimerPC.tDone }
  | TimerPC.tDelete =>
    if s.plat then
      { s with deletes := s.deletes + 1, plat := false, timer := TimerPC.tRecord }
    else
      { s with deletes := s.deletes + 1, reg := false, timer := TimerPC.tDone }
  | TimerPC.tRecord =>
    { s with records := s.records + 1, reg := false, timer := TimerPC.tDone }
  | TimerPC.tDone => s

/-- One step of the `close_ticket` handler (`ionetbot.js` lines 286-302).
At `uStart` the `channelsMap.get` guard either suspends into the delete
call (holding the channel handle) or finishes.  At `uDelete` the call
succeeds when the channel still exists, moving on to the map removal;
otherwise the `catch` logs and the handler finishes with the registry
entry still in place. -/
def stepUserClose (s : CloseConc) : CloseConc :=
  match s.user with
  | UserPC.uStart =>
    if s.reg then { s with user := UserPC.uDelete }
    else { s with user := UserPC.uDone }
  | UserPC.uDelete =>
    if s.plat then
      { s with deletes := s.deletes + 1, plat := false, user := UserPC.uDereg }
    else
      { s with deletes := s.deletes + 1, user := UserPC.uDone }
  | UserPC.uDereg =>
    { s with reg := false, user := UserPC.uDone }
  | UserPC.uDone => s

/-- Run one scheduler choice over the two close paths: `true` steps the
timer callback, `false` the interaction handler. -/
def stepCloseConc (s : CloseConc) (timerTurn : Bool) : CloseConc :=
  if timerTurn then stepTimerClose s else stepUserClose s

/-- Run a whole schedule of the two close paths. -/
def runCloseConc (s : CloseConc) (sched : List Bool) : CloseConc :=
  sched.foldl stepCloseConc s

/-! ## Dispatch boundary (`ionetbot.js` lines 228-280)

What the handler replies after driving a run, as a function of the
simulated poll results, the newest message text listed from the thread
(`none` when `messages.data` is empty), the `last_error` code of a failed
run, the current time at the failed-branch assignment and the current
`nextAvailableTime`.  The `try/catch` of lines 228-280 converts a
propagated transport error into the generic processing-error notice. -/

/-- The user-visible replies the handler can produce after a run. -/
inductive BotReply
  | failedNotice
  | aiReply (text : List Char)
  | processingErrorNotice
  | noReply
deriving DecidableEq

/-- The post-run part of the dispatch: drive `statusCheckLoop`, then take
the `failed` branch (lines 240-253), the `completed` branch (lines
254-275) or fall through (cancelled/expired send nothing).  Returns the
reply and the new `nextAvailableTime`; `none` when the simulated poll
sequence was exhausted. -/
def dispatchRun (polls : List (Except String String)) (latestText : Option (List Char))
    (lastErrorCode : Option String) (now nextAvailableTime : Nat) :
    Option (BotReply × Nat) :=
  match statusCheckLoop polls with
  | none => none
  | some (Except.error _, _) => some (BotReply.processingErrorNotice, nextAvailableTime)
  | some (Except.ok status, _) =>
    if status = "failed" then
      some (BotReply.failedNotice, failedBranchNext lastErrorCode now nextAvailableTime)
    else if status = "completed" then
      match latestText with
      | some text => some (BotReply.aiReply (truncateResponse text), nextAvailableTime)
      | none => some (BotReply.noReply, nextAvailableTime)
    else
      some (BotReply.noReply, nextAvailableTime)

/-- The `completed` branch's reply and interaction-record write, in source
order (`ionetbot.js` lines 254-274): the truncated reply is sent first,
then the record insert runs inside `withDb`. -/
def completedReplyAndRecord (text : List Char) (dbOp : Except String Unit) :
    BotReply × (Unit × List String) :=
  (BotReply.aiReply (truncateResponse text), withDb dbOp)

/-! ## Theorems -/

/-- C3: the run driver suspends for exactly 1000 ms after every
non-terminal poll and re-polls, returns the first terminal status
observed, yields `completed` after exactly two suspensions on the
sequence queued, in-progress, completed and `failed` after exactly one
suspension on the sequence queued, failed; and when the failure detail
carries the error code `rate_limit_exceeded`, `nextAvailableTime` is set
to 20000 ms after the moment the failed run's handling completes. -/
theorem c3_run_driver_polls_and_penalty :
    (∀ (s : String) (rest : List (Except String String)),
        terminalStates.contains s = false →
        statusCheckLoop (Except.ok s :: rest)
          = (statusCheckLoop rest).map (fun p => (p.1, 1000 :: p.2)))
    ∧ (∀ (s : String) (rest : List (Except String String)),
        terminalStates.contains s = true →
        statusCheckLoop (Except.ok s :: rest) = some (Except.ok s, []))
    ∧ statusCheckLoop [Except.ok "queued", Except.ok "in_progress", Except.ok "completed"]
        = some (Except.ok "completed", [1000, 1000])
    ∧ statusCheckLoop [Except.ok "queued", Except.ok "failed"]
        = some (Except.ok "failed", [1000])
    ∧ ∀ now nextAvailableTime : Nat,
        failedBranchNext (some "rate_limit_exceeded") now nextAvailableTime = now + 20000 := by
  refine ⟨?_, ?_, by rfl, by rfl, ?_⟩
  · intro s rest h
    have h2 : s ∉ terminalStates := by simpa using h
    cases hr : statusCheckLoop rest <;> simp [statusCheckLoop, h2, hr]
  · intro s rest h
    have h2 : s ∈ terminalStates := by simpa using h
    simp [statusCheckLoop, h2]
  · intro now nextAvailableTime
    simp [failedBranchNext, penalize]

/-- C3 witness: the general poll-step clauses applied to concrete inputs. -/
theorem c3_run_driver_polls_and_penalty_witness :
    statusCheckLoop [Except.ok "queued", Except.ok "completed"]
      = (statusCheckLoop [Except.ok "completed"]).map (fun p => (p.1, 1000 :: p.2))
    ∧ statusCheckLoop [Except.ok "completed"] = some (Except.ok "completed", []) :=
  ⟨c3_run_driver_polls_and_penalty.1 "queued" [Except.ok "completed"] (by decide),
   c3_run_driver_polls_and_penalty.2.1 "completed" [] (by decide)⟩

/-- C5: starting a session for user `u` at `t0` sets the expiry to
`t0 + 600000`, unconditionally overwriting any previous session;
admission holds exactly when `now ≤ expiry`, so it holds at
`t0 + 599999` and fails at `t0 + 600001`; and with no session the user
is never admitted. -/
theorem c5_session_expiry_boundary :
    ∀ (dmSessions : String → Option Nat) (u : String) (t0 now : Nat),
      startSession dmSessions u t0 u = some (t0 + 600000)
      ∧ isAdmitted (startSession dmSessions u t0) u (t0 + 599999) = true
      ∧ isAdmitted (startSession dmSessions u t0) u (t0 + 600001) = false
      ∧ isAdmitted (startSession dmSessions u t0) u now = decide (now ≤ t0 + 600000)
      ∧ isAdmitted (fun _ => none) u now = false := by
  intro dmSessions u t0 now
  have hz : t0 + 600000 ≠ 0 := by omega
  have hu : startSession dmSessions u t0 u = some (t0 + 600000) := by simp [startSession]
  refine ⟨hu, ?_, ?_, ?_, by simp [isAdmitted]⟩
  · simp only [isAdmitted, hu, if_neg hz]
    simp
  · simp only [isAdmitted, hu, if_neg hz]
    simp
  · simp only [isAdmitted, hu, if_neg hz]
    by_cases hc : now ≤ t0 + 600000 <;> simp [hc] <;> omega

/-- C6: a reply longer than 1999 characters is sent as exactly its first
1999 characters, and a reply of length at most 1999 is sent unchanged. -/
theorem c6_reply_truncation :
    ∀ response : List Char,
      (response.length ≤ 1999 → truncateResponse response = response)
      ∧ (1999 < response.length → (truncateResponse response).length = 1999)
      ∧ truncateResponse response = response.take 1999 := by
  intro response
  refine ⟨fun h => List.take_of_length_le h, fun h => ?_, rfl⟩
  simp [truncateResponse]
  omega

/-- C6 witness: a 5000-character reply is sent as exactly 1999 characters. -/
theorem c6_reply_truncation_witness :
    1999 < (List.replicate 5000 'a').length
    ∧ (truncateResponse (List.replicate 5000 'a')).length = 1999 :=
  ⟨by rw [List.length_replicate]; omega,
   (c6_reply_truncation (List.replicate 5000 'a')).2.1 (by rw [List.length_replicate]; omega)⟩

/-- C8: a failing database operation is caught and logged by `withDb`,
which returns normally on every input, and the reply sent on the primary
path is the same whether the persistence operation succeeds or fails. -/
theorem c8_persistence_failures_nonfatal :
    ∀ (text : List Char) (op op2 : Except String Unit) (e : String),
      withDb (Except.error e) = ((), ["Error during DB operation: " ++ e])
      ∧ (withDb op).1 = ()
      ∧ (completedReplyAndRecord text op).1 = (completedReplyAndRecord text op2).1 := by
  intro text op op2 e
  exact ⟨rfl, rfl, rfl⟩

/-- C4: the rate gate's `nextAvailableTime` never decreases along any
chronologically ordered sequence of penalties during a process lifetime,
and after a penalty applied at time `t` admission is denied for every
`now < t + 20000` and granted at every `now ≥ t + 20000`. -/
theorem c4_rate_gate_monotonicity :
    (∀ (t0 : Nat) (ts : List Nat), List.Chain (· ≤ ·) t0 ts →
        List.Chain' (· ≤ ·) (gateStates t0 ts))
    ∧ (∀ t now : Nat, checkAdmit (penalize t) now = decide (t + 20000 ≤ now))
    ∧ (∀ t now : Nat, t ≤ now → now < t + 20000 → checkAdmit (penalize t) now = false)
    ∧ (∀ t now : Nat, t + 20000 ≤ now → checkAdmit (penalize t) now = true) := by
  refine ⟨?_, ?_, ?_, ?_⟩
  · intro t0 ts h
    cases ts with
    | nil => simp [gateStates]
    | cons t ts =>
      rcases List.chain_cons.mp h with ⟨h1, h2⟩
      have hmap : List.Chain (· ≤ ·) (penalize t) (ts.map penalize) :=
        List.chain_map_of_chain penalize
          (fun a b hab => by simp only [penalize]; omega) h2
      have hhead : t0 ≤ penalize t := by simp only [penalize]; omega
      simp only [gateStates, List.map_cons]
      exact List.Chain.cons hhead hmap
  · intro t now
    by_cases hc : t + 20000 ≤ now <;> simp [checkAdmit, penalize, hc] <;> omega
  · intro t now h1 h2
    simp [checkAdmit, penalize]
    omega
  · intro t now h
    simp [checkAdmit, penalize]
    omega

/-- C4 witness: the monotone trace and the admission window at concrete
times. -/
theorem c4_rate_gate_monotonicity_witness :
    List.Chain (· ≤ ·) 5 [10, 30]
    ∧ List.Chain' (· ≤ ·) (gateStates 5 [10, 30])
    ∧ checkAdmit (penalize 7) 9 = false
    ∧ checkAdmit (penalize 7) 20010 = true := by
  have hch : List.Chain (· ≤ ·) 5 [10, 30] :=
    List.Chain.cons (by omega) (List.Chain.cons (by omega) List.Chain.nil)
  exact ⟨hch, c4_rate_gate_monotonicity.1 5 [10, 30] hch,
    c4_rate_gate_monotonicity.2.2.1 7 9 (by omega) (by omega),
    c4_rate_gate_monotonicity.2.2.2 7 20010 (by omega)⟩

/-- Propagation of a transport error by `statusCheckLoop`: after any
sequence of non-terminal polls, a poll that throws ends the loop at once
with that error, regardless of any later simulated results. -/
theorem statusCheckLoop_transport_error (e : String) :
    ∀ (pre : List String) (rest : List (Except String String)),
      (∀ s ∈ pre, terminalStates.contains s = false) →
      statusCheckLoop (pre.map Except.ok ++ Except.error e :: rest)
        = some (Except.error e, List.replicate pre.length 1000) := by
  intro pre
  induction pre with
  | nil => intro rest _; rfl
  | cons s pre ih =>
    intro rest h
    have hs : s ∉ terminalStates := by simpa using h s (by simp)
    have hrec := ih rest (fun x hx => h x (by simp [hx]))
    simp [statusCheckLoop, hs, hrec, List.replicate_succ]

/-- C7: when retrieving the run status fails with a transport error, the
run driver stops polling at once and propagates the error to its caller
(it terminates, never looping on the remaining results), and the dispatch
layer catches it and replies with the generic failure notice, leaving
`nextAvailableTime` unchanged. -/
theorem c7_transport_error_propagation :
    ∀ (pre : List String) (e : String) (rest : List (Except String String))
      (latestText : Option (List Char)) (lastErrorCode : Option String)
      (now nextAvailableTime : Nat),
      (∀ s ∈ pre, terminalStates.contains s = false) →
      statusCheckLoop (pre.map Except.ok ++ Except.error e :: rest)
        = some (Except.error e, List.replicate pre.length 1000)
      ∧ dispatchRun (pre.map Except.ok ++ Except.error e :: rest)
          latestText lastErrorCode now nextAvailableTime
        = some (BotReply.processingErrorNotice, nextAvailableTime) := by
  intro pre e rest latestText lastErrorCode now nextAvailableTime h
  have h1 := statusCheckLoop_transport_error e pre rest h
  exact ⟨h1, by simp [dispatchRun, h1]⟩

/-- C7 witness: a transport error after one non-terminal poll is
propagated and converted to the generic notice, ignoring a later
simulated result. -/
theorem c7_transport_error_propagation_witness :
    statusCheckLoop (["queued"].map Except.ok
        ++ Except.error "ECONNRESET" :: [Except.ok "completed"])
      = some (Except.error "ECONNRESET", List.replicate 1 1000)
    ∧ dispatchRun (["queued"].map Except.ok
          ++ Except.error "ECONNRESET" :: [Except.ok "completed"])
        (some ['h', 'i']) none 4 7
      = some (BotReply.processingErrorNotice, 7) :=
  c7_transport_error_propagation ["queued"] "ECONNRESET" [Except.ok "completed"]
    (some ['h', 'i']) none 4 7 (by decide)

/-- C9: for a non-bot, non-empty message that is not the
create-private-channel command, the AI-dispatch branch is reached exactly
when the channel is a guild text channel whose name starts with
`private-`; routing never reads the `channelsMap` registry, so a channel
absent from the registry is dispatched all the same. -/
theorem c9_dispatch_guard_ignores_registry :
    ∀ (channelsMap channelsMap2 : String → Bool) (commandChannelId : String) (m : InMsg),
      routeMessage channelsMap commandChannelId m
        = routeMessage channelsMap2 commandChannelId m
      ∧ (m.authorBot = false → m.content ≠ "" →
          (jsStartsWith m.content "!createPrivateChannel"
            && m.channelId = commandChannelId) = false →
          (routeMessage channelsMap commandChannelId m = Route.aiDispatch
            ↔ m.channelType = MChannelType.guildText
              ∧ jsStartsWith m.channelName "private-" = true))
      ∧ (channelsMap m.channelId = false → m.authorBot = false → m.content ≠ "" →
          (jsStartsWith m.content "!createPrivateChannel"
            && m.channelId = commandChannelId) = false →
          m.channelType = MChannelType.guildText →
          jsStartsWith m.channelName "private-" = true →
          routeMessage channelsMap commandChannelId m = Route.aiDispatch) := by
  intro channelsMap channelsMap2 commandChannelId m
  refine ⟨rfl, ?_, ?_⟩
  · intro ha hc hcmd
    by_cases h1 : m.channelType = MChannelType.guildText <;>
      by_cases h2 : jsStartsWith m.channelName "private-" = true <;>
        simp [routeMessage, ha, hc, hcmd, h1, h2]
  · intro _ ha hc hcmd h1 h2
    simp [routeMessage, ha, hc, hcmd, h1, h2]

/-- C9 witness: a message in a guild text channel named `private-42` that
is absent from the registry is routed to AI dispatch. -/
theorem c9_dispatch_guard_ignores_registry_witness :
    routeMessage (fun _ => false) "cmd"
        { authorBot := false, content := "hello", channelId := "c123",
          channelType := MChannelType.guildText, channelName := "private-42" }
      = Route.aiDispatch :=
  (c9_dispatch_guard_ignores_registry (fun _ => false) (fun _ => false) "cmd"
      { authorBot := false, content := "hello", channelId := "c123",
        channelType := MChannelType.guildText, channelName := "private-42" }).2.2
    rfl rfl (by decide) (by decide) rfl (by decide)

/-- C10: when the user-triggered close's platform delete call fails, the
registry entry is left in place, while a successful user close removes
it; when the timer-triggered close's delete call fails, the `finally`
block removes the registry entry anyway, and no lifecycle record is
written for the failed delete. -/
theorem c10_close_paths_error_asymmetry :
    ∀ st : CloseState, st.reg = true →
      (userCloseRun st false).reg = true
      ∧ (userCloseRun st false).deletes = st.deletes + 1
      ∧ (userCloseRun st true).reg = false
      ∧ (timerCloseRun st true false).reg = false
      ∧ (timerCloseRun st true false).deletes = st.deletes + 1
      ∧ (timerCloseRun st true false).records = st.records := by
  intro st h
  simp [userCloseRun, timerCloseRun, h]

/-- C10 witness: the error asymmetry at a concrete registered channel. -/
theorem c10_close_paths_error_asymmetry_witness :
    (userCloseRun ⟨true, 0, 0⟩ false).reg = true
    ∧ (timerCloseRun ⟨true, 0, 0⟩ true false).reg = false :=
  ⟨(c10_close_paths_error_asymmetry ⟨true, 0, 0⟩ rfl).1,
   (c10_close_paths_error_asymmetry ⟨true, 0, 0⟩ rfl).2.2.2.1⟩

/-- C1 counterexample: the claim fails on the code in two ways.  First,
when the user close runs to completion and the timer then fires
(sequentially, in that order), exactly one delete call is issued but zero
deletion lifecycle records are written, because the `close_ticket` handler
writes no record.  Second, when the two firings interleave at suspension
points (timer passes its `channelsMap.has` check and its fetch resolves,
then the user close deletes the channel, then the timer resumes), two
platform delete calls are issued. -/
theorem c1_counterexample_close_races :
    ((runCloseConc ⟨true, true, 0, 0, TimerPC.tStart, UserPC.uStart⟩
          [false, false, false, true]).deletes = 1
      ∧ (runCloseConc ⟨true, true, 0, 0, TimerPC.tStart, UserPC.uStart⟩
          [false, false, false, true]).records = 0)
    ∧ (runCloseConc ⟨true, true, 0, 0, TimerPC.tStart, UserPC.uStart⟩
          [true, false, true, false, true, false]).deletes = 2 := by
  decide

/-- C1 amended: when the deletion timer and the user's close_ticket press
fire sequentially (neither interleaving with the other at suspension
points) and the platform calls succeed, exactly one platform delete call
is issued for a registered channel and the channel ends deregistered;
the deletion lifecycle record is written exactly once when the timer
fires first and zero times when the user fires first, because the
user-close path writes no lifecycle record; and a close path firing when
the channel is no longer registered performs nothing. -/
theorem c1_amended_sequential_close :
    ∀ d r : Nat,
      timerCloseRun (userCloseRun { reg := true, deletes := d, records := r } true) true true
        = { reg := false, deletes := d + 1, records := r }
      ∧ userCloseRun (timerCloseRun { reg := true, deletes := d, records := r } true true) true
        = { reg := false, deletes := d + 1, records := r + 1 }
      ∧ ∀ st : CloseState, st.reg = false →
          userCloseRun st true = st ∧ timerCloseRun st true true = st := by
  intro d r
  refine ⟨by simp [userCloseRun, timerCloseRun], by simp [userCloseRun, timerCloseRun], ?_⟩
  intro st h
  simp [userCloseRun, timerCloseRun, h]

/-- C1 amended witness: a close path fired on an unregistered channel is
a no-op. -/
theorem c1_amended_sequential_close_witness :
    userCloseRun { reg := false, deletes := 3, records := 1 } true
        = { reg := false, deletes := 3, records := 1 }
    ∧ timerCloseRun { reg := false, deletes := 3, records := 1 } true true
        = { reg := false, deletes := 3, records := 1 } :=
  (c1_amended_sequential_close 0 0).2.2 { reg := false, deletes := 3, records := 1 } rfl

/-- C2 counterexample: two messages for the same unbound conversation
whose lookup-or-create sequences interleave at the thread-creation
suspension point each create a backend thread: two backend threads are
created for one conversation (the allocator ends at 2), the first task
returns thread 0 and the second thread 1, so the conversation is bound to
two distinct backend threads over time. -/
theorem c2_counterexample_interleaved_create :
    (runConc ⟨none, 0, LookupPC.start, LookupPC.start⟩
        [true, false, true, false]).nextThread = 2
    ∧ (runConc ⟨none, 0, LookupPC.start, LookupPC.start⟩
        [true, false, true, false]).task1 = LookupPC.done 0
    ∧ (runConc ⟨none, 0, LookupPC.start, LookupPC.start⟩
        [true, false, true, false]).task2 = LookupPC.done 1 := by
  decide

/-- C2 amended: once a resolve-or-create for a conversation has run to
completion with no other resolve-or-create for the same conversation in
flight, every subsequent resolve-or-create returns the same backend
thread identifier and changes nothing; in the two-task model, a
non-interleaved schedule creates exactly one backend thread and both
tasks return it.  The at-most-one-thread guarantee does not extend to
interleaved first use. -/
theorem c2_amended_sequential_binding_stability :
    (∀ (r : Registry) (c : String),
      (resolveOrCreate (resolveOrCreate r c).2 c).1 = (resolveOrCreate r c).1
      ∧ (resolveOrCreate (resolveOrCreate r c).2 c).2 = (resolveOrCreate r c).2)
    ∧ (runConc ⟨none, 0, LookupPC.start, LookupPC.start⟩
        [true, true, false]).task1 = LookupPC.done 0
    ∧ (runConc ⟨none, 0, LookupPC.start, LookupPC.start⟩
        [true, true, false]).task2 = LookupPC.done 0
    ∧ (runConc ⟨none, 0, LookupPC.start, LookupPC.start⟩
        [true, true, false]).nextThread = 1 := by
  refine ⟨?_, by decide, by decide, by decide⟩
  intro r c
  cases h : r.threadMap c with
  | some t => simp [resolveOrCreate, getOpenAiThreadId, h]
  | none => simp [resolveOrCreate, getOpenAiThreadId, addThreadToMap, h]

end PrivateBot
